import Mathlib

/-!
Shallow embedding of src/sql/parts/notebook/models/notebookContexts.ts
(class NotebookContexts) from the azuredatastudio repository.

Modelling conventions:
* TypeScript/JavaScript objects are Lean structures.  Because the source
  compares connection-profile objects with the reference-equality operator
  (the triple-equals check near the end of getActiveContexts), every
  IConnectionProfile carries a `tag : Nat` modelling its allocation
  identity: two references are the same object exactly when their tags
  coincide, provided every allocation receives a fresh tag.  The functions
  below thread a base tag `t0`; the allocations they perform use
  `t0`, `t0 + 1`, `t0 + 2` in program order, and theorems that depend on
  freshness assume every input object's tag is below `t0`.
* `undefined` / absent optional values are `Option.none`.  A JavaScript
  object value (even an empty object) is truthy, so the truthiness test
  on `profile.options` is `Option.isSome`.
* A JavaScript string is truthy exactly when non-empty.
* The async fetch `connectionService.getActiveConnections()` is modelled
  by passing the list it would return as an argument; getContextsForKernel
  additionally returns a Bool recording whether the fetch was invoked.
* `localize(key, message)` (vs/nls) returns its default message in the
  default locale; the label constants below hold those messages.
-/

/-- Connection profile record (sql/parts/connection/common/interfaces
IConnectionProfile, restricted to the fields this module reads).
`tag` models the JavaScript object reference, see the header comment. -/
structure IConnectionProfile where
  tag : Nat
  providerName : String
  id : String
  serverName : String
  options : Option (List (String × String))
deriving DecidableEq, Repr

/-- Result record IDefaultConnection from modelInterfaces.ts:
a default connection plus the list of other connections. -/
structure IDefaultConnection where
  defaultConnection : IConnectionProfile
  otherConnections : List IConnectionProfile
deriving DecidableEq, Repr

/-- nb.IKernel as read here: an id and a name. -/
structure IKernel where
  id : String
  name : String
deriving DecidableEq, Repr

/-- nb.IKernelChangedArgs: old and new kernel, each possibly undefined. -/
structure IKernelChangedArgs where
  oldValue : Option IKernel
  newValue : Option IKernel
deriving DecidableEq, Repr

/-- nb.IKernelSpec: name and display name. -/
structure IKernelSpec where
  name : String
  display_name : String
deriving DecidableEq, Repr

/-- nb.IAllKernels: the declared default kernel name and the spec list. -/
structure IAllKernels where
  defaultKernel : String
  kernels : List IKernelSpec
deriving DecidableEq, Repr

/-- nb.IKernelInfo: a saved kernel selection, identified by name. -/
structure IKernelInfo where
  name : String
deriving DecidableEq, Repr

namespace NotebookContexts

/-- NotebookContexts.MSSQL_PROVIDER. -/
def MSSQL_PROVIDER : String := "MSSQL"

/-- Default message of localize with key selectConnection. -/
def selectConnectionLabel : String := "Select connection"

/-- Default message of localize with key localhost. -/
def localhostLabel : String := "Localhost"

/-- Default message of localize with key addConnection. -/
def addConnectionLabel : String := "Add new connection"

/-- Modelled from the spec: notebookConstants lives in
sql/parts/notebook/models/modelInterfaces.ts, which is not under src/;
the spec states the fallback kernel is named "SQL" with display name
"SQL", so the constant notebookConstants.SQL is the string "SQL". -/
def notebookConstantsSQL : String := "SQL"

/-- The static getter NotebookContexts.DefaultContext.  Each access runs
the getter body, allocating a fresh placeholder profile; `t0` is the tag
of that allocation. -/
def DefaultContext (t0 : Nat) : IDefaultConnection :=
  let defaultConnection : IConnectionProfile :=
    { tag := t0, providerName := MSSQL_PROVIDER, id := "-1",
      serverName := selectConnectionLabel, options := none }
  { defaultConnection := defaultConnection, otherConnections := [defaultConnection] }

/-- The static getter NotebookContexts.LocalContext, allocating afresh on
each access like DefaultContext. -/
def LocalContext (t0 : Nat) : IDefaultConnection :=
  let localConnection : IConnectionProfile :=
    { tag := t0, providerName := MSSQL_PROVIDER, id := "-1",
      serverName := localhostLabel, options := none }
  { defaultConnection := localConnection, otherConnections := [localConnection] }

/-- The object literal pushed in getActiveContexts when the placeholder
check succeeds: provider "SQL", id "-2", Add-new-connection label. -/
def addNewConnection (t0 : Nat) : IConnectionProfile :=
  { tag := t0, providerName := "SQL", id := "-2",
    serverName := addConnectionLabel, options := none }

/-- Lines 79-82 of getActiveContexts: when the fetched list is non-empty,
drop every entry whose id is the sentinel "-1". -/
def droppedSentinel (activeConnections : List IConnectionProfile) :
    List IConnectionProfile :=
  if 0 < activeConnections.length then
    activeConnections.filter (fun conn => conn.id != "-1")
  else activeConnections

/-- Line 100-102 of getActiveContexts: restrict the remaining active
connections to those whose provider name is in connProviderIds. -/
def providerFiltered (activeConnections : List IConnectionProfile)
    (connProviderIds : List String) : List IConnectionProfile :=
  (droppedSentinel activeConnections).filter
    (fun connection => connProviderIds.contains connection.providerName)

/-- Lines 103-110 of getActiveContexts: defaultConnection becomes the
first filtered connection; when a profile with a truthy options object is
supplied and some filtered connection matches its serverName, the first
such match wins.  When the filtered list is empty the placeholder is
kept. -/
def pickDefaultConnection (connections : List IConnectionProfile)
    (profile : Option IConnectionProfile)
    (placeholder : IConnectionProfile) : IConnectionProfile :=
  match connections with
  | [] => placeholder
  | c :: _ =>
    match profile with
    | some p =>
      if p.options.isSome then
        match connections.find?
            (fun connection => connection.serverName == p.serverName) with
        | some m => m
        | none => c
      else c
    | none => c

/-- NotebookContexts.getActiveContexts.  `t0` is the allocation tag used
by the entry call to the DefaultContext getter; the getter call in the
placeholder comparison allocates tag `t0 + 1` and the Add-new-connection
literal tag `t0 + 2`.  The triple-equals comparison of the source is
reference equality, modelled by tag equality. -/
def getActiveContexts (t0 : Nat) (activeConnections : List IConnectionProfile)
    (connProviderIds : List String) (profile : Option IConnectionProfile) :
    IDefaultConnection :=
  if (droppedSentinel activeConnections).length = 0 then
    if connProviderIds.length = 0 then LocalContext (t0 + 1)
    else DefaultContext (t0 + 1)
  else
    let connections := providerFiltered activeConnections connProviderIds
    let defaultConnection :=
      pickDefaultConnection connections profile
        ((DefaultContext t0).defaultConnection)
    let otherConnections :=
      if defaultConnection.tag = ((DefaultContext (t0 + 1)).defaultConnection).tag
      then connections ++ [addNewConnection (t0 + 2)]
      else connections
    { defaultConnection := defaultConnection, otherConnections := otherConnections }

/-- NotebookContexts.getContextsForKernel.  `service` is the list the
connection-management service would return from its active-connections
fetch; the Bool of the result records whether that fetch was invoked.
The tag `t0` is used by the entry DefaultContext getter; a delegated
getActiveContexts call allocates from `t0 + 1`. -/
def getContextsForKernel (t0 : Nat) (service : List IConnectionProfile)
    (connProviderIds : List String)
    (kernelChangedArgs : Option IKernelChangedArgs)
    (profile : Option IConnectionProfile) : IDefaultConnection × Bool :=
  let connections := DefaultContext t0
  if profile.isNone &&
      (match kernelChangedArgs with
       | none => true
       | some a =>
         match a.newValue with
         | none => true
         | some n =>
           match a.oldValue with
           | some o => n.id == o.id
           | none => false) then
    (connections, false)
  else if (match kernelChangedArgs with
           | some a =>
             match a.newValue with
             | some n => n.name != ""
             | none => false
           | none => false) && decide (connProviderIds.length < 1) then
    (connections, false)
  else
    (getActiveContexts (t0 + 1) service connProviderIds profile, true)

/-- NotebookContexts.getDefaultKernel.  The notificationService parameter
is accepted (as an optional opaque value) and never read, as in the
source. -/
def getDefaultKernel (specs : Option IAllKernels)
    (connectionInfo : Option IConnectionProfile)
    (savedKernelInfo : Option IKernelInfo)
    ( _notificationService : Option Unit) : IKernelSpec :=
  let savedKernel : Option IKernelSpec :=
    specs.bind (fun s => savedKernelInfo.bind (fun ski =>
      s.kernels.find? (fun kernel => kernel.name == ski.name)))
  let defaultKernel : Option IKernelSpec :=
    specs.bind (fun s =>
      s.kernels.find? (fun kernel => kernel.name == s.defaultKernel))
  let defaultKernel :=
    if specs.isSome && connectionInfo.isSome then
      if savedKernel.isNone then defaultKernel else savedKernel
    else defaultKernel
  defaultKernel.getD
    { name := notebookConstantsSQL, display_name := notebookConstantsSQL }

end NotebookContexts

namespace NotebookContexts

/-- The placeholder allocated by the DefaultContext getter carries the tag
it was given. -/
theorem DefaultContext_tag (t0 : Nat) :
    ((DefaultContext t0).defaultConnection).tag = t0 := rfl

/-- Dropping the sentinel entries never adds elements. -/
theorem mem_of_mem_droppedSentinel {c : IConnectionProfile}
    {acs : List IConnectionProfile} (h : c ∈ droppedSentinel acs) : c ∈ acs := by
  unfold droppedSentinel at h
  split at h
  · exact List.mem_of_mem_filter h
  · exact h

/-- Provider filtering never adds elements. -/
theorem mem_of_mem_providerFiltered {c : IConnectionProfile}
    {acs : List IConnectionProfile} {ids : List String}
    (h : c ∈ providerFiltered acs ids) : c ∈ acs :=
  mem_of_mem_droppedSentinel (List.mem_of_mem_filter h)

/-- The picked default is either the placeholder or one of the filtered
connections. -/
theorem pickDefaultConnection_eq_or_mem (conns : List IConnectionProfile)
    (profile : Option IConnectionProfile) (ph : IConnectionProfile) :
    pickDefaultConnection conns profile ph = ph ∨
      pickDefaultConnection conns profile ph ∈ conns := by
  cases conns with
  | nil => exact Or.inl rfl
  | cons c rest =>
    cases profile with
    | none => exact Or.inr (List.mem_cons_self c rest)
    | some p =>
      by_cases hp : p.options.isSome
      · cases hf : (c :: rest).find?
            (fun connection => connection.serverName == p.serverName) with
        | some m =>
          refine Or.inr ?_
          have he : pickDefaultConnection (c :: rest) (some p) ph = m := by
            simp [pickDefaultConnection, hp, hf]
          rw [he]
          exact List.mem_of_find?_eq_some hf
        | none =>
          refine Or.inr ?_
          have he : pickDefaultConnection (c :: rest) (some p) ph = c := by
            simp [pickDefaultConnection, hp, hf]
          rw [he]
          exact List.mem_cons_self c rest
      · refine Or.inr ?_
        have he : pickDefaultConnection (c :: rest) (some p) ph = c := by
          simp [pickDefaultConnection, hp]
        rw [he]
        exact List.mem_cons_self c rest

/-- Characterization of getActiveContexts when the provider-filtered list
is non-empty: the guarded branch runs, the default is picked by
pickDefaultConnection, and the placeholder-identity check decides whether
the Add-new-connection literal is appended. -/
theorem getActiveContexts_char (t0 : Nat) (acs : List IConnectionProfile)
    (ids : List String) (profile : Option IConnectionProfile)
    (hne : providerFiltered acs ids ≠ []) :
    getActiveContexts t0 acs ids profile =
      { defaultConnection :=
          pickDefaultConnection (providerFiltered acs ids) profile
            ((DefaultContext t0).defaultConnection),
        otherConnections :=
          if (pickDefaultConnection (providerFiltered acs ids) profile
              ((DefaultContext t0).defaultConnection)).tag =
              ((DefaultContext (t0 + 1)).defaultConnection).tag
          then providerFiltered acs ids ++ [addNewConnection (t0 + 2)]
          else providerFiltered acs ids } := by
  have hlen : ¬ (droppedSentinel acs).length = 0 := by
    intro h0
    apply hne
    have hnil : droppedSentinel acs = [] := List.length_eq_zero.mp h0
    simp [providerFiltered, hnil]
  simp only [getActiveContexts, if_neg hlen]

/-- Under tag freshness of the inputs, the picked default never carries
the tag of the freshly allocated comparison object, so the
Add-new-connection entry is never appended: the reference-equality check
of the source compares against a fresh getter allocation. -/
theorem getActiveContexts_fresh (t0 : Nat) (acs : List IConnectionProfile)
    (ids : List String) (profile : Option IConnectionProfile)
    (hfresh : ∀ c ∈ acs, c.tag < t0)
    (hne : providerFiltered acs ids ≠ []) :
    getActiveContexts t0 acs ids profile =
      { defaultConnection :=
          pickDefaultConnection (providerFiltered acs ids) profile
            ((DefaultContext t0).defaultConnection),
        otherConnections := providerFiltered acs ids } := by
  rw [getActiveContexts_char t0 acs ids profile hne]
  have htag : (pickDefaultConnection (providerFiltered acs ids) profile
      ((DefaultContext t0).defaultConnection)).tag ≠
      ((DefaultContext (t0 + 1)).defaultConnection).tag := by
    rw [DefaultContext_tag]
    rcases pickDefaultConnection_eq_or_mem (providerFiltered acs ids) profile
        ((DefaultContext t0).defaultConnection) with h | h
    · rw [h, DefaultContext_tag]
      omega
    · have hlt := hfresh _ (mem_of_mem_providerFiltered h)
      omega
  rw [if_neg htag]

/-- The defaultConnection component of a non-empty-filter run is the
picked default, independently of the Add-new-connection append. -/
theorem getActiveContexts_defaultConnection (t0 : Nat)
    (acs : List IConnectionProfile) (ids : List String)
    (profile : Option IConnectionProfile)
    (hne : providerFiltered acs ids ≠ []) :
    (getActiveContexts t0 acs ids profile).defaultConnection =
      pickDefaultConnection (providerFiltered acs ids) profile
        ((DefaultContext t0).defaultConnection) := by
  rw [getActiveContexts_char t0 acs ids profile hne]

/-- C6: with specs, connectionInfo and savedKernelInfo all supplied,
getDefaultKernel returns the first kernel of specs.kernels whose name is
exactly savedKernelInfo.name when one exists, and otherwise the first
kernel whose name is exactly specs.defaultKernel. -/
theorem getDefaultKernel_saved_preferred (s : IAllKernels)
    (ci : IConnectionProfile) (ski : IKernelInfo) (ns : Option Unit) :
    (∀ sk : IKernelSpec,
        s.kernels.find? (fun kernel => kernel.name == ski.name) = some sk →
        getDefaultKernel (some s) (some ci) (some ski) ns = sk) ∧
    (s.kernels.find? (fun kernel => kernel.name == ski.name) = none →
      ∀ dk : IKernelSpec,
        s.kernels.find? (fun kernel => kernel.name == s.defaultKernel) = some dk →
        getDefaultKernel (some s) (some ci) (some ski) ns = dk) := by
  constructor
  · intro sk hsk
    simp [getDefaultKernel, hsk]
  · intro hnone dk hdk
    simp [getDefaultKernel, hnone, hdk]

/-- Witness for C6 at concrete kernel lists: the saved name wins when
present, the default name is used when the saved name has no match. -/
theorem getDefaultKernel_saved_preferred_witness :
    getDefaultKernel (some ⟨"k1", [⟨"k1", "K1"⟩, ⟨"saved", "S"⟩]⟩)
        (some ⟨0, "MSSQL", "1", "A", none⟩) (some ⟨"saved"⟩) none = ⟨"saved", "S"⟩ ∧
    getDefaultKernel (some ⟨"k1", [⟨"k1", "K1"⟩, ⟨"other", "S"⟩]⟩)
        (some ⟨0, "MSSQL", "1", "A", none⟩) (some ⟨"missing"⟩) none = ⟨"k1", "K1"⟩ := by
  constructor
  · exact (getDefaultKernel_saved_preferred ⟨"k1", [⟨"k1", "K1"⟩, ⟨"saved", "S"⟩]⟩
      ⟨0, "MSSQL", "1", "A", none⟩ ⟨"saved"⟩ none).1 ⟨"saved", "S"⟩ (by rfl)
  · exact (getDefaultKernel_saved_preferred ⟨"k1", [⟨"k1", "K1"⟩, ⟨"other", "S"⟩]⟩
      ⟨0, "MSSQL", "1", "A", none⟩ ⟨"missing"⟩ none).2 (by rfl) ⟨"k1", "K1"⟩ (by rfl)

/-- C7: getDefaultKernel always returns a spec, and whenever no candidate
is resolved (specs absent, or neither the default-kernel name nor an
applicable saved name matches) it returns the synthetic SQL fallback. -/
theorem getDefaultKernel_sql_fallback :
    (∀ (ci : Option IConnectionProfile) (ski : Option IKernelInfo) (ns : Option Unit),
        getDefaultKernel none ci ski ns = ⟨"SQL", "SQL"⟩) ∧
    (∀ (s : IAllKernels) (ci : Option IConnectionProfile)
        (ski : Option IKernelInfo) (ns : Option Unit),
        s.kernels.find? (fun kernel => kernel.name == s.defaultKernel) = none →
        (ci = none ∨ ski = none ∨
          ∀ i : IKernelInfo, ski = some i →
            s.kernels.find? (fun kernel => kernel.name == i.name) = none) →
        getDefaultKernel (some s) ci ski ns = ⟨"SQL", "SQL"⟩) := by
  constructor
  · intro ci ski ns
    cases ci <;> cases ski <;> rfl
  · intro s ci ski ns hdef hcase
    rcases hcase with h | h | h
    · subst h
      cases ski <;> simp [getDefaultKernel, notebookConstantsSQL, hdef]
    · subst h
      cases ci <;> simp [getDefaultKernel, notebookConstantsSQL, hdef]
    · cases ci with
      | none => cases ski <;> simp [getDefaultKernel, notebookConstantsSQL, hdef]
      | some c =>
        cases ski with
        | none => simp [getDefaultKernel, notebookConstantsSQL, hdef]
        | some i => simp [getDefaultKernel, notebookConstantsSQL, hdef, h i rfl]

/-- Witness for C7: the all-undefined call and a call where neither name
matches both return the SQL fallback. -/
theorem getDefaultKernel_sql_fallback_witness :
    getDefaultKernel none none none none = ⟨"SQL", "SQL"⟩ ∧
    getDefaultKernel (some ⟨"python", [⟨"r", "R"⟩]⟩)
      (some ⟨0, "MSSQL", "1", "A", none⟩) (some ⟨"q"⟩) none = ⟨"SQL", "SQL"⟩ := by
  constructor
  · exact getDefaultKernel_sql_fallback.1 none none none
  · exact getDefaultKernel_sql_fallback.2 ⟨"python", [⟨"r", "R"⟩]⟩
      (some ⟨0, "MSSQL", "1", "A", none⟩) (some ⟨"q"⟩) none (by rfl)
      (Or.inr (Or.inr (fun i hi => by cases hi; rfl)))

/-- C9: the notificationService argument never influences the value
returned by getDefaultKernel. -/
theorem getDefaultKernel_notificationService_irrelevant :
    ∀ (specs : Option IAllKernels) (ci : Option IConnectionProfile)
      (ski : Option IKernelInfo) (ns1 ns2 : Option Unit),
      getDefaultKernel specs ci ski ns1 = getDefaultKernel specs ci ski ns2 :=
  fun _ _ _ _ _ => rfl

/-- C10: with specs supplied and connectionInfo absent, the saved kernel
info is ignored: the result equals the no-saved-info call, namely the
first match of specs.defaultKernel or the SQL fallback. -/
theorem getDefaultKernel_no_connection_ignores_saved :
    ∀ (s : IAllKernels) (ski : Option IKernelInfo) (ns : Option Unit),
      getDefaultKernel (some s) none ski ns = getDefaultKernel (some s) none none ns ∧
      getDefaultKernel (some s) none ski ns =
        (s.kernels.find? (fun kernel => kernel.name == s.defaultKernel)).getD
          ⟨"SQL", "SQL"⟩ := by
  intro s ski ns
  cases ski <;> exact ⟨rfl, rfl⟩

/-- C1: evaluation of a call in which, after dropping sentinel entries,
the active list is non-empty but no entry has an allowed provider.  The
source never appends the synthetic Add-new-connection entry: its guard
compares the current defaultConnection by reference against a freshly
allocated object from the DefaultContext getter, which is always a
distinct object, so otherConnections comes back empty while the claim
expects a provider "SQL" / id "-2" entry in it. -/
theorem getActiveContexts_no_synthetic_entry :
    (getActiveContexts 10 [⟨0, "PGSQL", "5", "B", none⟩]
        ["MSSQL"] none).otherConnections = [] ∧
    (getActiveContexts 10 [⟨0, "PGSQL", "5", "B", none⟩]
        ["MSSQL"] none).defaultConnection =
      ⟨10, "MSSQL", "-1", "Select connection", none⟩ := by
  constructor <;> rfl

/-- C2 counterexample: a kernel-change event whose old and new kernels
share the name "k" but differ in id, with no profile and a non-empty
provider list, does invoke the connection fetch (the source compares
kernel ids, not names). -/
theorem getContextsForKernel_same_name_fetches :
    (getContextsForKernel 10 [⟨0, "MSSQL", "1", "A", none⟩] ["MSSQL"]
      (some ⟨some ⟨"1", "k"⟩, some ⟨"2", "k"⟩⟩) none).2 = true := by
  rfl

/-- C2 amended: with no profile, getContextsForKernel returns the
placeholder DefaultContext without invoking the connection fetch when
there is no kernel-change event, or the event has no new kernel, or an
old kernel is present whose id equals the new kernel's id. -/
theorem getContextsForKernel_early_return (t0 : Nat)
    (service : List IConnectionProfile) (ids : List String)
    (args : Option IKernelChangedArgs)
    (h : args = none ∨ ∃ a, args = some a ∧
      (a.newValue = none ∨ ∃ o n, a.oldValue = some o ∧ a.newValue = some n ∧
        n.id = o.id)) :
    getContextsForKernel t0 service ids args none = (DefaultContext t0, false) := by
  rcases h with h | ⟨a, ha, h⟩
  · subst h
    rfl
  · subst ha
    obtain ⟨ov, nv⟩ := a
    rcases h with h | ⟨o, n, ho, hn, hid⟩
    · simp only at h
      subst h
      cases ov <;> rfl
    · simp only at ho hn
      subst ho
      subst hn
      simp [getContextsForKernel, hid]

/-- Witness for C2: an event whose kernels share the id "1" (under
different names) short-circuits to the placeholder with no fetch. -/
theorem getContextsForKernel_early_return_witness :
    getContextsForKernel 5 [] ["MSSQL"]
      (some ⟨some ⟨"1", "k"⟩, some ⟨"1", "kk"⟩⟩) none = (DefaultContext 5, false) :=
  getContextsForKernel_early_return 5 [] ["MSSQL"]
    (some ⟨some ⟨"1", "k"⟩, some ⟨"1", "kk"⟩⟩)
    (Or.inr ⟨⟨some ⟨"1", "k"⟩, some ⟨"1", "kk"⟩⟩, rfl,
      Or.inr ⟨⟨"1", "k"⟩, ⟨"1", "kk"⟩, rfl, rfl, rfl⟩⟩)

/-- C3 counterexample: a currentProfile with an empty options object
still triggers the serverName override, because an empty object is
truthy: with allowed connections A then B and a profile naming server
"B" with empty options, the returned default is B, not the first
element A. -/
theorem getActiveContexts_empty_options_overrides :
    (getActiveContexts 10
        [⟨0, "MSSQL", "1", "A", none⟩, ⟨1, "MSSQL", "2", "B", none⟩]
        ["MSSQL"] (some ⟨2, "X", "7", "B", some []⟩)).defaultConnection =
      ⟨1, "MSSQL", "2", "B", none⟩ ∧
    (⟨1, "MSSQL", "2", "B", none⟩ : IConnectionProfile) ≠
      ⟨0, "MSSQL", "1", "A", none⟩ := by
  constructor
  · rfl
  · decide

/-- C3 amended: the override happens whenever a currentProfile is
supplied whose options field is present (an empty options object also
counts) and some provider-filtered connection matches its serverName, the
first match in list order winning; with an absent options field, or with
no profile at all, the first filtered connection is kept. -/
theorem getActiveContexts_override (t0 : Nat) (acs : List IConnectionProfile)
    (ids : List String) (p : IConnectionProfile) (d0 : IConnectionProfile)
    (hhead : (providerFiltered acs ids).head? = some d0) :
    (∀ m, p.options.isSome = true →
        (providerFiltered acs ids).find?
          (fun connection => connection.serverName == p.serverName) = some m →
        (getActiveContexts t0 acs ids (some p)).defaultConnection = m) ∧
    (p.options = none →
        (getActiveContexts t0 acs ids (some p)).defaultConnection = d0) ∧
    (getActiveContexts t0 acs ids none).defaultConnection = d0 := by
  have hne : providerFiltered acs ids ≠ [] := by
    intro h0
    rw [h0] at hhead
    cases hhead
  refine ⟨?_, ?_, ?_⟩
  · intro m hp hfind
    rw [getActiveContexts_defaultConnection t0 acs ids (some p) hne]
    cases hc : providerFiltered acs ids with
    | nil => exact absurd hc hne
    | cons c rest =>
      rw [hc] at hfind
      simp [pickDefaultConnection, hp, hfind]
  · intro hnone
    rw [getActiveContexts_defaultConnection t0 acs ids (some p) hne]
    cases hc : providerFiltered acs ids with
    | nil => exact absurd hc hne
    | cons c rest =>
      rw [hc] at hhead
      simp only [List.head?_cons, Option.some.injEq] at hhead
      simp [pickDefaultConnection, hnone, hhead]
  · rw [getActiveContexts_defaultConnection t0 acs ids none hne]
    cases hc : providerFiltered acs ids with
    | nil => exact absurd hc hne
    | cons c rest =>
      rw [hc] at hhead
      simp only [List.head?_cons, Option.some.injEq] at hhead
      simp [pickDefaultConnection, hhead]

/-- Witness for C3 (amended): a profile with a non-empty options object
naming server "B" overrides the default to the B record. -/
theorem getActiveContexts_override_witness :
    (getActiveContexts 10
        [⟨0, "MSSQL", "1", "A", none⟩, ⟨1, "MSSQL", "2", "B", none⟩]
        ["MSSQL"]
        (some ⟨2, "X", "7", "B", some [("a", "1")]⟩)).defaultConnection =
      ⟨1, "MSSQL", "2", "B", none⟩ :=
  (getActiveContexts_override 10
      [⟨0, "MSSQL", "1", "A", none⟩, ⟨1, "MSSQL", "2", "B", none⟩]
      ["MSSQL"] ⟨2, "X", "7", "B", some [("a", "1")]⟩
      ⟨0, "MSSQL", "1", "A", none⟩ (by rfl)).1
    ⟨1, "MSSQL", "2", "B", none⟩ (by rfl) (by rfl)

/-- C4: when the fetched list minus sentinel entries is empty, the result
is the Localhost placeholder for an empty allowed-provider list and the
Select-connection placeholder otherwise. -/
theorem getActiveContexts_empty_placeholders (t0 : Nat)
    (acs : List IConnectionProfile) (ids : List String)
    (profile : Option IConnectionProfile)
    (h : droppedSentinel acs = []) :
    (ids = [] → getActiveContexts t0 acs ids profile = LocalContext (t0 + 1)) ∧
    (ids ≠ [] → getActiveContexts t0 acs ids profile = DefaultContext (t0 + 1)) := by
  constructor
  · intro hids
    simp [getActiveContexts, h, hids]
  · intro hids
    have hlen : ¬ ids.length = 0 := by
      intro h0
      exact hids (List.length_eq_zero.mp h0)
    simp [getActiveContexts, h, hlen]

/-- Witness for C4: one sentinel-only list with no allowed providers gives
the Localhost placeholder; an empty list with providers gives the
Select-connection placeholder. -/
theorem getActiveContexts_empty_placeholders_witness :
    getActiveContexts 10 [⟨0, "MSSQL", "-1", "x", none⟩] [] none =
      LocalContext 11 ∧
    getActiveContexts 10 [] ["MSSQL"] none = DefaultContext 11 := by
  constructor
  · exact (getActiveContexts_empty_placeholders 10 [⟨0, "MSSQL", "-1", "x", none⟩]
      [] none (by rfl)).1 rfl
  · exact (getActiveContexts_empty_placeholders 10 [] ["MSSQL"] none (by rfl)).2
      (by decide)

/-- C5: with no currentProfile and tag-fresh inputs, whenever the
provider-filtered list is non-empty the returned default is its first
element and otherConnections is exactly that filtered list. -/
theorem getActiveContexts_head_default (t0 : Nat)
    (acs : List IConnectionProfile) (ids : List String) (d0 : IConnectionProfile)
    (hfresh : ∀ c ∈ acs, c.tag < t0)
    (hhead : (providerFiltered acs ids).head? = some d0) :
    (getActiveContexts t0 acs ids none).defaultConnection = d0 ∧
    (getActiveContexts t0 acs ids none).otherConnections =
      providerFiltered acs ids := by
  have hne : providerFiltered acs ids ≠ [] := by
    intro h0
    rw [h0] at hhead
    cases hhead
  rw [getActiveContexts_fresh t0 acs ids none hfresh hne]
  refine ⟨?_, rfl⟩
  cases hc : providerFiltered acs ids with
  | nil => exact absurd hc hne
  | cons c rest =>
    rw [hc] at hhead
    simp only [List.head?_cons, Option.some.injEq] at hhead
    simp [pickDefaultConnection, hhead]

/-- Witness for C5: the MSSQL/A and PGSQL/B example with allowed provider
MSSQL returns the MSSQL/A record as default and [MSSQL/A] as the other
connections. -/
theorem getActiveContexts_head_default_witness :
    (getActiveContexts 10
        [⟨0, "MSSQL", "1", "A", none⟩, ⟨1, "PGSQL", "2", "B", none⟩]
        ["MSSQL"] none).defaultConnection = ⟨0, "MSSQL", "1", "A", none⟩ ∧
    (getActiveContexts 10
        [⟨0, "MSSQL", "1", "A", none⟩, ⟨1, "PGSQL", "2", "B", none⟩]
        ["MSSQL"] none).otherConnections = [⟨0, "MSSQL", "1", "A", none⟩] := by
  have h := getActiveContexts_head_default 10
    [⟨0, "MSSQL", "1", "A", none⟩, ⟨1, "PGSQL", "2", "B", none⟩] ["MSSQL"]
    ⟨0, "MSSQL", "1", "A", none⟩ (by decide) (by rfl)
  exact ⟨h.1, h.2.trans (by rfl)⟩

/-- C8: whenever the returned defaultConnection is not a placeholder (its
id is not the sentinel "-1"), it is a member of the returned
otherConnections list. -/
theorem getActiveContexts_default_mem (t0 : Nat)
    (acs : List IConnectionProfile) (ids : List String)
    (profile : Option IConnectionProfile)
    (h : (getActiveContexts t0 acs ids profile).defaultConnection.id ≠ "-1") :
    (getActiveContexts t0 acs ids profile).defaultConnection ∈
      (getActiveContexts t0 acs ids profile).otherConnections := by
  by_cases hlen : (droppedSentinel acs).length = 0
  · by_cases hids : ids.length = 0
    · simp [getActiveContexts, hlen, hids, LocalContext]
    · simp [getActiveContexts, hlen, hids, DefaultContext]
  · by_cases hpf : providerFiltered acs ids = []
    · exfalso
      apply h
      simp [getActiveContexts, hlen, hpf, pickDefaultConnection, DefaultContext]
    · rw [getActiveContexts_char t0 acs ids profile hpf] at h ⊢
      dsimp only at h ⊢
      rcases pickDefaultConnection_eq_or_mem (providerFiltered acs ids) profile
          ((DefaultContext t0).defaultConnection) with hp | hp
      · exfalso
        apply h
        rw [hp]
        rfl
      · split
        · exact List.mem_append_left _ hp
        · exact hp

/-- Witness for C8: a single allowed MSSQL connection is both the default
and a member of otherConnections. -/
theorem getActiveContexts_default_mem_witness :
    (getActiveContexts 10 [⟨0, "MSSQL", "1", "A", none⟩] ["MSSQL"]
        none).defaultConnection ∈
      (getActiveContexts 10 [⟨0, "MSSQL", "1", "A", none⟩] ["MSSQL"]
        none).otherConnections :=
  getActiveContexts_default_mem 10 [⟨0, "MSSQL", "1", "A", none⟩] ["MSSQL"] none
    (by decide)

end NotebookContexts
